import Mathlib

/-!
Verification development for the bis-streamlit-app repository: a Streamlit
chat UI over a model-serving endpoint (`src/pages/03_SimpleChat.py`), a chat
UI over a Genie conversational agent (`src/pages/04_GenieAI.py`), and a SQL
dashboard (`src/pages/Dashboard.py`).  The Python pages are shallowly
embedded: dictionaries become structures with optional fields (a `none`
field models an absent key), exceptions become `Except`, session state
becomes explicit state passing, and money amounts are integer cents.
-/

namespace BisApp

/-- A chat message, as stored in `st.session_state.messages`:
a dict `\x7b"role": ..., "content": ...\x7d`. -/
structure Message where
  role : String
  content : String
  deriving DecidableEq, Repr

/-- `st.session_state.messages`: the per-session conversation store. -/
abbrev Conversation := List Message

def userMsg (content : String) : Message := { role := "user", content := content }

def assistantMsg (content : String) : Message := { role := "assistant", content := content }

/-! ### Genie agent result handling (`src/pages/04_GenieAI.py`, lines 77-89) -/

/-- A LangChain message inside the agent result, distinguished by
`isinstance` checks (`HumanMessage` / `AIMessage` / anything else). -/
inductive GMessage where
  | human (content : String)
  | ai (content : String)
  | otherKind (content : String)
  deriving DecidableEq, Repr

/-- `isinstance(m, AIMessage)`. -/
def GMessage.isAI : GMessage → Bool
  | .ai _ => true
  | _ => false

/-- `m.content`. -/
def GMessage.content : GMessage → String
  | .human c => c
  | .ai c => c
  | .otherKind c => c

/-- The value returned by `agent.invoke(...)`: either a dict that contains a
`"messages"` key (the branch taken by
`isinstance(result, dict) and "messages" in result`), or anything else,
carried with its own textual rendering. -/
inductive AgentResult where
  | dictWithMessages (msgs : List GMessage)
  | otherValue (rendering : String)
  deriving DecidableEq, Repr

/-- Python `str(...)` applied to one LangChain message (its repr). -/
def pyStrGMessage : GMessage → String
  | .human c => "HumanMessage(content=" ++ c ++ ")"
  | .ai c => "AIMessage(content=" ++ c ++ ")"
  | .otherKind c => "BaseMessage(content=" ++ c ++ ")"

/-- Python `str(result)`: for a dict holding a `"messages"` list this is the
dict repr; for any other value it is that value\x27s own rendering. -/
def pyStr : AgentResult → String
  | .dictWithMessages msgs =>
      "\x7b\x27messages\x27: [" ++ String.intercalate ", " (msgs.map pyStrGMessage) ++ "]\x7d"
  | .otherValue s => s

/-- Reply extraction from an agent result (lines 80-84 of 04_GenieAI.py):
```
if isinstance(result, dict) and "messages" in result:
    ai_msgs = [m for m in result["messages"] if isinstance(m, AIMessage)]
    reply = ai_msgs[-1].content if ai_msgs else str(result)
else:
    reply = str(result)
``` -/
def extractReply (result : AgentResult) : String :=
  match result with
  | .dictWithMessages msgs =>
      let ai_msgs := msgs.filter GMessage.isAI
      match ai_msgs.getLast? with
      | some m => m.content
      | none => pyStr result
  | .otherValue _ => pyStr result

/-- The reply-extraction step of the Genie page together with the log lines
it emits.  The page configures a logger at startup but the extraction path
(lines 80-84) contains no logging call, so the emitted log list is empty. -/
def genieReplyStep (result : AgentResult) : String × List String :=
  (extractReply result, [])

/-! ### The Genie chat turn (`src/pages/04_GenieAI.py`, lines 71-89)

One submitted prompt: the user message is appended first; then
`agent.invoke` runs.  If it raises, the Streamlit script run aborts and the
session state keeps the user message; if it returns, the extracted reply is
appended as an assistant message. -/

/-- Process one Genie chat turn given the outcome of the `agent.invoke`
call (`.error` models the call raising). -/
def genieTurn (conv : Conversation) (prompt : String)
    (agentResult : Except String AgentResult) : Conversation :=
  let conv' := conv ++ [userMsg prompt]
  match agentResult with
  | .error _ => conv'
  | .ok res => conv' ++ [assistantMsg (extractReply res)]

/-- Session state for an execution trace that also counts how many times the
remote agent was invoked. -/
structure TurnExec where
  conv : Conversation
  agentCalls : Nat
  deriving DecidableEq, Repr

/-- One Genie turn, instrumented with the invocation count: the agent is
invoked exactly once per submitted prompt (the page has no retry logic). -/
def genieTurnRun (agent : String → Except String AgentResult)
    (st : TurnExec) (prompt : String) : TurnExec :=
  { conv := genieTurn st.conv prompt (agent prompt)
    agentCalls := st.agentCalls + 1 }

/-- A whole session: fold the turn processing over the submitted prompts,
each paired with the outcome of its agent call. -/
def genieTurns (conv : Conversation)
    (turns : List (String × Except String AgentResult)) : Conversation :=
  turns.foldl (fun c t => genieTurn c t.1 t.2) conv

/-- The messages a single turn contributes to the store: the user message,
then the assistant message when the call returned a reply. -/
def turnMsgs (t : String × Except String AgentResult) : List Message :=
  match t.2 with
  | .ok res => [userMsg t.1, assistantMsg (extractReply res)]
  | .error _ => [userMsg t.1]

/-- `true` when the turn received a reply. -/
def turnReplied (t : String × Except String AgentResult) : Bool :=
  match t.2 with
  | .ok _ => true
  | .error _ => false

/-! ### Python value formatting helpers

Money amounts are modelled as integer cents, so Python\x27s `\x7bv:,.2f\x7d`
(two decimals, comma thousands grouping) and `\x7bv:.2f\x7d` become exact
integer formatting. -/

/-- Insert a comma after every three characters of a reversed digit list. -/
def commaGroupRev : List Char → List Char
  | a :: b :: c :: d :: rest => a :: b :: c :: ',' :: commaGroupRev (d :: rest)
  | l => l

/-- Render a natural number with comma thousands separators. -/
def group3 (n : Nat) : String :=
  String.mk (commaGroupRev (toString n).toList.reverse).reverse

/-- Two-digit zero-padded fractional part. -/
def pad2 (m : Nat) : String :=
  if m < 10 then "0" ++ toString m else toString m

/-- Python `f"\x7bv:,.2f\x7d"` on an amount of `cents` cents. -/
def fmtComma2 (cents : Int) : String :=
  (if cents < 0 then "-" else "") ++ group3 (cents.natAbs / 100) ++ "." ++ pad2 (cents.natAbs % 100)

/-- Python `f"\x7bv:.2f\x7d"` on an amount of `cents` cents. -/
def fmt2 (cents : Int) : String :=
  (if cents < 0 then "-" else "") ++ toString (cents.natAbs / 100) ++ "." ++ pad2 (cents.natAbs % 100)

/-- Python str interpolation of an optional string (`None` renders as
`"None"`). -/
def pyShowOpt : Option String → String
  | none => "None"
  | some s => s

/-! ### SimpleChat user-info dict (`src/pages/03_SimpleChat.py`)

The page passes Python dicts around; we model the union of all keys that
ever appear, with `none` meaning the key is absent.  `get_user_info`
(lines 25-31) only ever sets `user_name` / `user_email` / `user_id`, whose
values may themselves be `None` (absent forwarded header); the snapshot
expected by `build_system_prompt` (lines 76-106) carries `name`, `email`,
`user_id`, `accounts`, `recent_transactions` and `preferences`. -/

/-- One entry of `recent_transactions`. -/
structure Transaction where
  merchant : String
  amount : Int
  deriving DecidableEq, Repr

/-- The `preferences` sub-dict. -/
structure Preferences where
  contact_method : String
  budgeting_style : String
  deriving DecidableEq, Repr

/-- A Python dict holding user information; an outer `none` models an
absent key. -/
structure UserInfoDict where
  user_name : Option (Option String) := none
  user_email : Option (Option String) := none
  user_id : Option (Option String) := none
  name : Option String := none
  email : Option String := none
  accounts : Option (List (String × Int)) := none
  recent_transactions : Option (List Transaction) := none
  preferences : Option Preferences := none
  deriving DecidableEq, Repr

/-- Python `d[key]`: raises `KeyError` when the key is absent. -/
def dictGet {α : Type} (key : String) : Option α → Except String α
  | some v => Except.ok v
  | none => Except.error ("KeyError: " ++ key)

/-- `get_user_info` (03_SimpleChat.py lines 25-31): reads three forwarded
headers; the resulting dict holds exactly the keys `user_name`,
`user_email`, `user_id`. -/
def get_user_info (headers : String → Option String) : UserInfoDict :=
  { user_name := some (headers "X-Forwarded-Preferred-Username")
    user_email := some (headers "X-Forwarded-Email")
    user_id := some (headers "X-Forwarded-User") }

/-- The part of the system prompt before the account section. -/
def promptHeader (nm em : String) (uid : Option String) (nAcc : Nat) : String :=
  "\nYou are a helpful assistant. Always respond clearly, concisely, and provide actionable information when appropriate.\n\n# User Information\nName: "
    ++ nm ++ "\nEmail: " ++ em ++ "\nUser ID: " ++ pyShowOpt uid
    ++ "\n\nNumber of banking accounts: " ++ toString nAcc ++ "\n"

/-- The part of the system prompt after the `# Banking Preferences`
heading. -/
def promptFooter (p : Preferences) : String :=
  "\nPreferred Contact Method: " ++ p.contact_method
    ++ "\nBudgeting Style: " ++ p.budgeting_style
    ++ "\n\n# Context for RAG\nYou have access to the user\x27s banking info above. When answering questions, reference this data when relevant. \nIf the user asks about account balances, recent transactions, or budgeting advice, provide the info from above. \nDo not make up other sensitive data.\n"

/-- `build_system_prompt` (03_SimpleChat.py lines 76-106).  Dict lookups can
raise `KeyError`, in the evaluation order of the Python source: `accounts`,
`recent_transactions`, then the f-string fields. -/
def build_system_prompt (user_info : UserInfoDict) : Except String String := do
  let accounts ← dictGet "accounts" user_info.accounts
  let txs ← dictGet "recent_transactions" user_info.recent_transactions
  let accounts_str := String.intercalate "\n"
    (accounts.map (fun kv => "- " ++ kv.1 ++ ": €" ++ fmtComma2 kv.2))
  let transactions_str := String.intercalate "\n"
    (txs.enum.map (fun it => toString (it.1 + 1) ++ ". " ++ it.2.merchant ++ " - €" ++ fmt2 it.2.amount))
  let nm ← dictGet "name" user_info.name
  let em ← dictGet "email" user_info.email
  let uid ← dictGet "user_id" user_info.user_id
  let prefs ← dictGet "preferences" user_info.preferences
  pure (promptHeader nm em uid accounts.length
    ++ "Account balances:\n" ++ accounts_str
    ++ "\n\nRecent Transactions:\n" ++ transactions_str
    ++ "\n\n# Banking Preferences" ++ promptFooter prefs)

/-! ### The SimpleChat turn and page (`src/pages/03_SimpleChat.py`) -/

/-- Session state of the SimpleChat page, instrumented with the number of
`query_endpoint` invocations. -/
structure SCState where
  messages : Conversation
  endpointCalls : Nat
  deriving DecidableEq, Repr

/-- One submitted SimpleChat turn (lines 69-126): append the user message,
rebuild `user_info` from the headers, build the system prompt (a raised
`KeyError` aborts the script run before `query_endpoint`), then query the
endpoint and append its reply. -/
def simpleChatTurn (headers : String → Option String)
    (endpoint : Conversation → String → Except String String)
    (st : SCState) (prompt : String) : SCState :=
  let msgs := st.messages ++ [userMsg prompt]
  match build_system_prompt (get_user_info headers) with
  | .error _ => { messages := msgs, endpointCalls := st.endpointCalls }
  | .ok system_prompt =>
      match endpoint msgs system_prompt with
      | .error _ => { messages := msgs, endpointCalls := st.endpointCalls + 1 }
      | .ok reply =>
          { messages := msgs ++ [assistantMsg reply]
            endpointCalls := st.endpointCalls + 1 }

/-- What one render of the SimpleChat page shows. -/
structure PageView where
  errorShown : Bool
  chatInputShown : Bool
  deriving DecidableEq, Repr

/-- One render of the SimpleChat page after startup (lines 44-126):
`supported` is the value of `is_endpoint_supported(SERVING_ENDPOINT)`.  When
unsupported, only the error notice is shown: no chat input, no turn
processing.  Otherwise the chat input is shown and a submitted prompt is
processed. -/
def simpleChatPage (supported : Bool) (headers : String → Option String)
    (endpoint : Conversation → String → Except String String)
    (st : SCState) (submitted : Option String) : SCState × PageView :=
  if supported then
    match submitted with
    | some prompt =>
        (simpleChatTurn headers endpoint st prompt,
         { errorShown := false, chatInputShown := true })
    | none => (st, { errorShown := false, chatInputShown := true })
  else
    (st, { errorShown := true, chatInputShown := false })

/-! ### Startup configuration asserts of the three pages -/

/-- The assert message of 03_SimpleChat.py, lines 14-19. -/
def servingEndpointAssertMsg : String :=
  "Unable to determine serving endpoint to use for chatbot app. If developing locally, set the SERVING_ENDPOINT environment variable to the name of your serving endpoint. If deploying to a Databricks app, include a serving endpoint resource named \x27serving_endpoint\x27 with CAN_QUERY permissions, as described in https://docs.databricks.com/aws/en/generative-ai/agent-framework/chat-app#deploy-the-databricks-app"

/-- `assert os.getenv('SERVING_ENDPOINT'), ...` (03_SimpleChat.py lines
13-19): a missing or empty variable is falsy and aborts startup. -/
def simpleChatStartup (env : String → Option String) : Except String String :=
  match env "SERVING_ENDPOINT" with
  | none => Except.error servingEndpointAssertMsg
  | some s => if s = "" then Except.error servingEndpointAssertMsg else Except.ok s

/-- `assert os.getenv('GENIE_ID'), "GENIE_ID must be set in app.yaml."`
(04_GenieAI.py line 53). -/
def genieStartup (env : String → Option String) : Except String String :=
  match env "GENIE_ID" with
  | none => Except.error "GENIE_ID must be set in app.yaml."
  | some s => if s = "" then Except.error "GENIE_ID must be set in app.yaml." else Except.ok s

/-- `assert os.getenv('DATABRICKS_WAREHOUSE_ID'), ...` (Dashboard.py line
18).  This is the only configuration check the dashboard performs at
startup: `DATABRICKS_HOST` / credentials are only consumed later, inside
`sqlQuery`, by the SDK `Config()` object. -/
def dashboardStartup (env : String → Option String) : Except String String :=
  match env "DATABRICKS_WAREHOUSE_ID" with
  | none => Except.error "DATABRICKS_WAREHOUSE_ID must be set in app.yaml or .env"
  | some s => if s = "" then Except.error "DATABRICKS_WAREHOUSE_ID must be set in app.yaml or .env" else Except.ok s

/-! ### Dashboard data model (`src/pages/Dashboard.py`)

A query result is a rectangular table: a column schema plus rows, each row
a total assignment of values to column names (cell values abstracted as
integers; only schema presence, emptiness and orderings matter to the
page\x27s control flow). -/

/-- A pandas DataFrame, as far as the dashboard\x27s control flow observes
it. -/
structure DF where
  cols : List String
  rows : List (String → Int)

/-- `df[c]`: the column as a list of values, or a `KeyError` when the
column is absent from the schema. -/
def colVals (df : DF) (c : String) : Except String (List Int) :=
  if c ∈ df.cols then Except.ok (df.rows.map (fun r => r c)) else Except.error ("KeyError: " ++ c)

/-- `.iloc[0]`: the first row of a selection, an `IndexError` when the
selection is empty. -/
def iloc0 {α : Type} : List α → Except String α
  | [] => Except.error "IndexError: single positional indexer is out-of-bounds"
  | x :: _ => Except.ok x

/-- One render pass of the dashboard (Dashboard.py lines 100-283), given the
five loaded query results.  Each step is a pandas access of the source, in
source order; the first raising access aborts the whole page render.  The
`.iloc[0]` at line 197 selects the first row whose `kpi_month` equals the
column maximum. -/
def renderDashboard (demo cards trans crm compl : DF) : Except String Unit := do
  let _ ← colVals demo "state_name"
  let _ ← colVals demo "client_count"
  let _ ← colVals demo "age_group"
  let _ ← colVals demo "sex"
  let _ ← colVals cards "card_type"
  let _ ← colVals cards "card_count"
  let months ← colVals trans "kpi_month"
  let _ ← iloc0 (trans.rows.filter (fun r => months.maximum = some (r "kpi_month")))
  let _ ← colVals trans "total_amount"
  let _ ← colVals trans "transaction_count"
  let _ ← colVals trans "average_ending_balance"
  let _ ← colVals crm "hour"
  let _ ← colVals crm "count"
  let _ ← colVals crm "average_time"
  let _ ← colVals compl "product"
  let _ ← colVals compl "count"
  pure ()

/-- Every column access made by a dashboard render succeeds and the
monthly-transactions table has at least one row: the shape under which the
page can render at all. -/
def dashboardNondegenerate (demo cards trans crm compl : DF) : Prop :=
  "state_name" ∈ demo.cols ∧ "client_count" ∈ demo.cols ∧
  "age_group" ∈ demo.cols ∧ "sex" ∈ demo.cols ∧
  "card_type" ∈ cards.cols ∧ "card_count" ∈ cards.cols ∧
  "kpi_month" ∈ trans.cols ∧ trans.rows ≠ [] ∧
  "total_amount" ∈ trans.cols ∧ "transaction_count" ∈ trans.cols ∧
  "average_ending_balance" ∈ trans.cols ∧
  "hour" ∈ crm.cols ∧ "count" ∈ crm.cols ∧ "average_time" ∈ crm.cols ∧
  "product" ∈ compl.cols ∧ "count" ∈ compl.cols

/-! ### Dashboard query cache

Modelled from the spec: the `@st.cache_data(ttl=300)` decorator applied to
each query loader (Dashboard.py lines 41-91) delegates its caching
machinery to the Streamlit framework, whose sources are not part of this
repository.  Per the spec, results are cached keyed by function identity
for a fixed time-to-live of 300 seconds; a call within the window returns
the cached table without executing SQL, and a call after expiry
re-executes the query exactly once and stores the fresh result. -/

/-- The cache slot of one decorated query function: the time an entry was
stored and the stored table, if any. -/
structure CacheSlot where
  stored : Option (Nat × DF)

/-- One call of a TTL-cached query function at time `now`: returns the
table, the updated slot, and the number of SQL executions this call
triggered. -/
def cachedQuery (ttl : Nat) (run : Unit → DF) (now : Nat) (slot : CacheSlot) :
    DF × CacheSlot × Nat :=
  match slot.stored with
  | some tv =>
      if now < tv.1 + ttl then (tv.2, slot, 0)
      else
        let fresh := run ()
        (fresh, { stored := some (now, fresh) }, 1)
  | none =>
      let fresh := run ()
      (fresh, { stored := some (now, fresh) }, 1)

/-- `simpleChatTurns`: a whole SimpleChat session, folding the turn
processing over the submitted prompts. -/
def simpleChatTurns (headers : String → Option String)
    (endpoint : Conversation → String → Except String String)
    (st : SCState) (prompts : List String) : SCState :=
  prompts.foldl (simpleChatTurn headers endpoint) st

/-! ### Helper lemmas -/

theorem genieTurn_eq (conv : Conversation) (t : String × Except String AgentResult) :
    genieTurn conv t.1 t.2 = conv ++ turnMsgs t := by
  obtain ⟨p, r⟩ := t
  cases r <;> simp [genieTurn, turnMsgs]

theorem genieTurns_eq (turns : List (String × Except String AgentResult)) :
    ∀ conv : Conversation, genieTurns conv turns = conv ++ turns.flatMap turnMsgs := by
  induction turns with
  | nil => intro conv; simp [genieTurns]
  | cons t ts ih =>
      intro conv
      show genieTurns (genieTurn conv t.1 t.2) ts = _
      rw [ih, genieTurn_eq]
      simp

theorem flatMap_turnMsgs_length (turns : List (String × Except String AgentResult)) :
    (turns.flatMap turnMsgs).length
      = 2 * turns.countP turnReplied + turns.countP (fun t => !turnReplied t) := by
  induction turns with
  | nil => simp
  | cons t ts ih =>
      obtain ⟨p, r⟩ := t
      cases r <;>
        simp [turnMsgs, turnReplied, List.countP_cons, ih] <;> ring

theorem simpleChatTurn_messages (headers : String → Option String)
    (endpoint : Conversation → String → Except String String)
    (st : SCState) (prompt : String) :
    simpleChatTurn headers endpoint st prompt
      = { messages := st.messages ++ [userMsg prompt], endpointCalls := st.endpointCalls } := rfl

theorem simpleChatTurns_messages (headers : String → Option String)
    (endpoint : Conversation → String → Except String String)
    (prompts : List String) :
    ∀ st : SCState, simpleChatTurns headers endpoint st prompts
      = { messages := st.messages ++ prompts.map userMsg, endpointCalls := st.endpointCalls } := by
  induction prompts with
  | nil => intro st; simp [simpleChatTurns]
  | cons p ps ih =>
      intro st
      show simpleChatTurns headers endpoint (simpleChatTurn headers endpoint st p) ps = _
      rw [ih, simpleChatTurn_messages]
      simp

theorem bindOk {α β : Type} {x : Except String α} {f : α → Except String β} {b : β}
    (h : x >>= f = Except.ok b) : ∃ a, x = Except.ok a ∧ f a = Except.ok b := by
  cases x with
  | error e => simp [Bind.bind, Except.bind] at h
  | ok a => exact ⟨a, rfl, by simpa [Bind.bind, Except.bind] using h⟩

theorem okBind {α β : Type} (a : α) (f : α → Except String β) :
    (Except.ok a >>= f) = f a := rfl

theorem errBind {α β : Type} (e : String) (f : α → Except String β) :
    ((Except.error e : Except String α) >>= f) = Except.error e := rfl

theorem mapOk {α β : Type} {f : α → β} {x : Except String α} {b : β}
    (h : (f <$> x) = Except.ok b) : ∃ a, x = Except.ok a := by
  cases x with
  | error e => simp [Functor.map, Except.map] at h
  | ok a => exact ⟨a, rfl⟩

theorem colVals_ok {df : DF} {c : String} {v : List Int}
    (h : colVals df c = Except.ok v) : c ∈ df.cols := by
  by_cases hc : c ∈ df.cols
  · exact hc
  · simp [colVals, hc] at h

theorem iloc0_ok {α : Type} {l : List α} {a : α} (h : iloc0 l = Except.ok a) : l ≠ [] := by
  intro he; subst he; simp [iloc0] at h

theorem pyStr_dict_ne_empty (msgs : List GMessage) :
    pyStr (AgentResult.dictWithMessages msgs) ≠ "" := by
  intro h
  have hl := congrArg String.length h
  simp [pyStr, String.length_append] at hl
  exact absurd hl.1.1 (by decide)

/-! ### Claim theorems -/

/-- Claim C1: within one session the conversation store after processing N
submitted turns is exactly the concatenation, in submission order, of each
turn\x27s contribution (user message, then assistant message when the turn
received a reply — so roles alternate except where a reply failed); its
length is 2 × (turns that received a reply) + (turns with no reply); the
store grows by append only (processing from any prior store only appends);
and the SimpleChat page as written never obtains a reply, so its store is
exactly the submitted user messages in order. -/
theorem c1_conversation_append_only_shape
    (turns : List (String × Except String AgentResult)) :
    genieTurns [] turns = turns.flatMap turnMsgs
    ∧ (genieTurns [] turns).length
        = 2 * turns.countP turnReplied + turns.countP (fun t => !turnReplied t)
    ∧ (∀ conv : Conversation, genieTurns conv turns = conv ++ genieTurns [] turns)
    ∧ (∀ (headers : String → Option String)
         (endpoint : Conversation → String → Except String String)
         (st : SCState) (prompts : List String),
         (simpleChatTurns headers endpoint st prompts).messages
           = st.messages ++ prompts.map userMsg) := by
  refine ⟨by simpa using genieTurns_eq turns [], ?_, ?_, ?_⟩
  · rw [genieTurns_eq turns []]
    simpa using flatMap_turnMsgs_length turns
  · intro conv
    rw [genieTurns_eq turns conv, genieTurns_eq turns []]
    simp
  · intro headers endpoint st prompts
    rw [simpleChatTurns_messages headers endpoint prompts st]

/-- Claim C2: `build_system_prompt` never raises on a snapshot whose
`accounts` and `recent_transactions` are empty collections: it returns
(`Except.ok`) a string in which the literal account section header and the
literal transaction section header appear with no rows between them and the
next heading. -/
theorem c2_empty_snapshot_wellformed_sections (nm em : String)
    (uid : Option String) (p : Preferences) :
    ∃ before after,
      build_system_prompt
        { user_id := some uid, name := some nm, email := some em,
          accounts := some [], recent_transactions := some [],
          preferences := some p }
        = Except.ok (before
            ++ "Account balances:\n\n\nRecent Transactions:\n\n\n# Banking Preferences"
            ++ after) := by
  refine ⟨promptHeader nm em uid 0, promptFooter p, ?_⟩
  have h : build_system_prompt
      { user_id := some uid, name := some nm, email := some em,
        accounts := some [], recent_transactions := some [],
        preferences := some p }
      = Except.ok (promptHeader nm em uid 0 ++ "Account balances:\n" ++ ""
          ++ "\n\nRecent Transactions:\n" ++ "" ++ "\n\n# Banking Preferences"
          ++ promptFooter p) := rfl
  rw [h]
  apply congrArg Except.ok
  have hL : ("Account balances:\n" : String) ++ "\n\nRecent Transactions:\n"
      ++ "\n\n# Banking Preferences"
      = "Account balances:\n\n\nRecent Transactions:\n\n\n# Banking Preferences" := by decide
  rw [← hL]
  simp only [String.append_empty, String.append_assoc]

/-- Claim C3: every dict produced by `get_user_info` (keys `user_name`,
`user_email`, `user_id` only) makes `build_system_prompt` raise a
missing-key `KeyError` on `accounts`, so a SimpleChat turn always aborts
after recording the user message and before the `query_endpoint` step: no
input from `get_user_info` can reach the endpoint call. -/
theorem c3_get_user_info_never_reaches_endpoint :
    ∀ (headers : String → Option String)
      (endpoint : Conversation → String → Except String String)
      (st : SCState) (prompt : String),
    build_system_prompt (get_user_info headers) = Except.error "KeyError: accounts"
    ∧ simpleChatTurn headers endpoint st prompt
        = { messages := st.messages ++ [userMsg prompt],
            endpointCalls := st.endpointCalls } := by
  intro headers endpoint st prompt
  exact ⟨rfl, rfl⟩

/-- Claim C4: the capability check fails closed: when
`is_endpoint_supported` reports the endpoint unsupported, the SimpleChat
page shows the unsupported-endpoint notice, presents no chat input, leaves
the session state untouched, and attempts no `query_endpoint` call. -/
theorem c4_unsupported_endpoint_fails_closed :
    ∀ (headers : String → Option String)
      (endpoint : Conversation → String → Except String String)
      (st : SCState) (submitted : Option String),
    simpleChatPage false headers endpoint st submitted
      = (st, { errorShown := true, chatInputShown := false })
    ∧ (simpleChatPage false headers endpoint st submitted).1.endpointCalls
        = st.endpointCalls := by
  intro headers endpoint st submitted
  exact ⟨rfl, rfl⟩

/-- Claim C5: when the remote agent call for a turn raises, the triggering
user message was appended before the call and remains the only addition to
the conversation (no assistant message is appended), and the agent was
invoked exactly once (no retry). -/
theorem c5_failed_call_keeps_user_turn
    (agent : String → Except String AgentResult) (st : TurnExec)
    (prompt e : String) (h : agent prompt = Except.error e) :
    (genieTurnRun agent st prompt).conv = st.conv ++ [userMsg prompt]
    ∧ (genieTurnRun agent st prompt).agentCalls = st.agentCalls + 1 := by
  constructor
  · show genieTurn st.conv prompt (agent prompt) = _
    rw [h]
    rfl
  · rfl

/-- Witness for C5 at a concrete failing agent. -/
theorem c5_failed_call_keeps_user_turn_witness :
    (genieTurnRun (fun _ => Except.error "boom") ⟨[], 0⟩ "hi").conv
      = ([] : Conversation) ++ [userMsg "hi"]
    ∧ (genieTurnRun (fun _ => Except.error "boom") ⟨[], 0⟩ "hi").agentCalls = 0 + 1 :=
  c5_failed_call_keeps_user_turn (fun _ => Except.error "boom") ⟨[], 0⟩ "hi" "boom" rfl

/-- Counterexample for C6 as stated: at the concrete agent result whose
message list contains no AI turns, the extraction path returns the non-empty
fallback rendering but emits no log line at all — no anomaly is logged,
contrary to the claim. -/
theorem c6_counterexample_no_anomaly_logged :
    (genieReplyStep (AgentResult.dictWithMessages [])).1 ≠ ""
    ∧ (genieReplyStep (AgentResult.dictWithMessages [])).2 = [] := by
  constructor
  · decide
  · rfl

/-- Claim C6 (amended): for every agent result whose message list contains
no AI turns, the reply extraction returns the textual rendering of the
entire raw result, which is a non-empty string (it is total, so it never
returns null and never raises); however no anomaly is logged — the
extraction path emits no log lines. -/
theorem c6_no_ai_turns_fallback (msgs : List GMessage)
    (h : msgs.filter GMessage.isAI = []) :
    extractReply (AgentResult.dictWithMessages msgs)
        = pyStr (AgentResult.dictWithMessages msgs)
    ∧ extractReply (AgentResult.dictWithMessages msgs) ≠ ""
    ∧ (genieReplyStep (AgentResult.dictWithMessages msgs)).2 = [] := by
  have hx : extractReply (AgentResult.dictWithMessages msgs)
      = pyStr (AgentResult.dictWithMessages msgs) := by
    simp [extractReply, h]
  exact ⟨hx, hx ▸ pyStr_dict_ne_empty msgs, rfl⟩

/-- Witness for C6 (amended) at a concrete AI-free agent result. -/
theorem c6_no_ai_turns_fallback_witness :
    extractReply (AgentResult.dictWithMessages [GMessage.human "q"])
        = pyStr (AgentResult.dictWithMessages [GMessage.human "q"])
    ∧ extractReply (AgentResult.dictWithMessages [GMessage.human "q"]) ≠ ""
    ∧ (genieReplyStep (AgentResult.dictWithMessages [GMessage.human "q"])).2 = [] :=
  c6_no_ai_turns_fallback [GMessage.human "q"] (by decide)

/-- Claim C7: the Prompt Composer is deterministic — two runs on identical
user-info inputs produce the identical output; `build_system_prompt` is a
pure function of its argument, with no hidden state, time, or randomness
parameter. -/
theorem c7_prompt_composer_deterministic (ui1 ui2 : UserInfoDict)
    (h : ui1 = ui2) :
    build_system_prompt ui1 = build_system_prompt ui2 := by
  rw [h]

/-- Witness for C7 at a concrete input. -/
theorem c7_prompt_composer_deterministic_witness :
    build_system_prompt (get_user_info (fun _ => none))
      = build_system_prompt (get_user_info (fun _ => none)) :=
  c7_prompt_composer_deterministic _ _ rfl

/-- Counterexample for C8 as stated: an environment in which the whole
warehouse host/credential configuration is absent (in particular
`DATABRICKS_HOST`) but the warehouse identifier is set.  Dashboard startup
succeeds — it performs no fatal startup check on host/credential
configuration, contrary to the claim that absence of any required
configuration aborts the page at startup. -/
theorem c8_counterexample_host_not_checked :
    dashboardStartup
        (fun k => if k = "DATABRICKS_WAREHOUSE_ID" then some "warehouse-123" else none)
      = Except.ok "warehouse-123"
    ∧ (fun k => if k = "DATABRICKS_WAREHOUSE_ID" then some "warehouse-123" else none)
        "DATABRICKS_HOST" = none := by
  exact ⟨rfl, rfl⟩

/-- Claim C8 (amended): absence (or emptiness, which Python\x27s truthiness
treats the same) of the serving-endpoint identifier, of the
conversational-agent identifier, or of the SQL warehouse identifier is a
fatal startup error on its page, with the explicit operator-facing assert
message; warehouse host/credential configuration, by contrast, is not
checked at startup. -/
theorem c8_missing_identifier_fatal (env : String → Option String) :
    ((env "SERVING_ENDPOINT" = none ∨ env "SERVING_ENDPOINT" = some "") →
       simpleChatStartup env = Except.error servingEndpointAssertMsg)
    ∧ ((env "GENIE_ID" = none ∨ env "GENIE_ID" = some "") →
       genieStartup env = Except.error "GENIE_ID must be set in app.yaml.")
    ∧ ((env "DATABRICKS_WAREHOUSE_ID" = none
          ∨ env "DATABRICKS_WAREHOUSE_ID" = some "") →
       dashboardStartup env
         = Except.error "DATABRICKS_WAREHOUSE_ID must be set in app.yaml or .env") := by
  refine ⟨?_, ?_, ?_⟩ <;>
    rintro (h | h) <;>
      simp [simpleChatStartup, genieStartup, dashboardStartup, h]

/-- Witness for C8 (amended) at the empty environment. -/
theorem c8_missing_identifier_fatal_witness :
    simpleChatStartup (fun _ => none) = Except.error servingEndpointAssertMsg
    ∧ genieStartup (fun _ => none) = Except.error "GENIE_ID must be set in app.yaml."
    ∧ dashboardStartup (fun _ => none)
        = Except.error "DATABRICKS_WAREHOUSE_ID must be set in app.yaml or .env" := by
  obtain ⟨h1, h2, h3⟩ := c8_missing_identifier_fatal (fun _ => none)
  exact ⟨h1 (Or.inl rfl), h2 (Or.inl rfl), h3 (Or.inl rfl)⟩

/-- Claim C9: for a TTL-cached dashboard query function, the first call
executes the SQL once and stores the table; a second call within the
300-second time-to-live window triggers no SQL execution and returns the
cached table; a call after expiry triggers exactly one re-execution. -/
theorem c9_cache_ttl_semantics (run : Unit → DF) (t0 t1 t2 : Nat)
    (h1 : t1 < t0 + 300) (h2 : t0 + 300 ≤ t2) :
    (cachedQuery 300 run t0 { stored := none }).2.2 = 1
    ∧ (cachedQuery 300 run t1 (cachedQuery 300 run t0 { stored := none }).2.1).2.2 = 0
    ∧ (cachedQuery 300 run t1 (cachedQuery 300 run t0 { stored := none }).2.1).1
        = (cachedQuery 300 run t0 { stored := none }).1
    ∧ (cachedQuery 300 run t2 (cachedQuery 300 run t0 { stored := none }).2.1).2.2 = 1 := by
  refine ⟨rfl, ?_, ?_, ?_⟩
  · simp [cachedQuery, h1]
  · simp [cachedQuery, h1]
  · simp [cachedQuery, show ¬t2 < t0 + 300 by omega]

/-- Witness for C9 at concrete times 0, 100 (within the window) and 300
(expired). -/
theorem c9_cache_ttl_semantics_witness :
    (cachedQuery 300 (fun _ => ⟨[], []⟩) 0 { stored := none }).2.2 = 1
    ∧ (cachedQuery 300 (fun _ => ⟨[], []⟩) 100
        (cachedQuery 300 (fun _ => ⟨[], []⟩) 0 { stored := none }).2.1).2.2 = 0
    ∧ (cachedQuery 300 (fun _ => ⟨[], []⟩) 100
        (cachedQuery 300 (fun _ => ⟨[], []⟩) 0 { stored := none }).2.1).1
        = (cachedQuery 300 (fun _ => ⟨[], []⟩) 0 { stored := none }).1
    ∧ (cachedQuery 300 (fun _ => ⟨[], []⟩) 300
        (cachedQuery 300 (fun _ => ⟨[], []⟩) 0 { stored := none }).2.1).2.2 = 1 :=
  c9_cache_ttl_semantics (fun _ => ⟨[], []⟩) 0 100 300 (by decide) (by decide)

/-- Claim C10: when the monthly-transactions query returns zero rows (and
the accesses before it succeed), the transaction tab\x27s `.iloc[0]` on the
empty latest-month selection raises an `IndexError` and the whole page
render aborts; conversely a render can only succeed when every one of the
five query results is non-degenerate (all accessed columns present,
monthly transactions non-empty). -/
theorem c10_empty_transactions_abort (demo cards trans crm compl : DF)
    (h1 : "state_name" ∈ demo.cols) (h2 : "client_count" ∈ demo.cols)
    (h3 : "age_group" ∈ demo.cols) (h4 : "sex" ∈ demo.cols)
    (h5 : "card_type" ∈ cards.cols) (h6 : "card_count" ∈ cards.cols)
    (h7 : "kpi_month" ∈ trans.cols) (h8 : trans.rows = []) :
    renderDashboard demo cards trans crm compl
      = Except.error "IndexError: single positional indexer is out-of-bounds"
    ∧ (∀ demo' cards' trans' crm' compl' : DF,
        renderDashboard demo' cards' trans' crm' compl' = Except.ok ()
        → dashboardNondegenerate demo' cards' trans' crm' compl') := by
  constructor
  · simp [renderDashboard, colVals, iloc0, okBind, errBind,
      h1, h2, h3, h4, h5, h6, h7, h8]
  · intro demo' cards' trans' crm' compl' h
    obtain ⟨v1, hv1, h⟩ := bindOk h
    obtain ⟨v2, hv2, h⟩ := bindOk h
    obtain ⟨v3, hv3, h⟩ := bindOk h
    obtain ⟨v4, hv4, h⟩ := bindOk h
    obtain ⟨v5, hv5, h⟩ := bindOk h
    obtain ⟨v6, hv6, h⟩ := bindOk h
    obtain ⟨v7, hv7, h⟩ := bindOk h
    obtain ⟨r0, hr0, h⟩ := bindOk h
    obtain ⟨v8, hv8, h⟩ := bindOk h
    obtain ⟨v9, hv9, h⟩ := bindOk h
    obtain ⟨v10, hv10, h⟩ := bindOk h
    obtain ⟨v11, hv11, h⟩ := bindOk h
    obtain ⟨v12, hv12, h⟩ := bindOk h
    obtain ⟨v13, hv13, h⟩ := bindOk h
    obtain ⟨v14, hv14, h⟩ := bindOk h
    obtain ⟨v15, hv15⟩ := mapOk h
    refine ⟨colVals_ok hv1, colVals_ok hv2, colVals_ok hv3, colVals_ok hv4,
      colVals_ok hv5, colVals_ok hv6, colVals_ok hv7, ?_, colVals_ok hv8,
      colVals_ok hv9, colVals_ok hv10, colVals_ok hv11, colVals_ok hv12,
      colVals_ok hv13, colVals_ok hv14, colVals_ok hv15⟩
    intro hrows
    apply iloc0_ok hr0
    rw [hrows]
    rfl

/-- Witness for C10 at concrete empty query results with the expected
schemas. -/
theorem c10_empty_transactions_abort_witness :
    renderDashboard
        ⟨["state_name", "client_count", "age_group", "sex"], []⟩
        ⟨["card_type", "card_count"], []⟩
        ⟨["kpi_month", "total_amount", "transaction_count", "average_ending_balance"], []⟩
        ⟨["hour", "count", "average_time"], []⟩
        ⟨["product", "count"], []⟩
      = Except.error "IndexError: single positional indexer is out-of-bounds"
    ∧ (∀ demo' cards' trans' crm' compl' : DF,
        renderDashboard demo' cards' trans' crm' compl' = Except.ok ()
        → dashboardNondegenerate demo' cards' trans' crm' compl') :=
  c10_empty_transactions_abort
    ⟨["state_name", "client_count", "age_group", "sex"], []⟩
    ⟨["card_type", "card_count"], []⟩
    ⟨["kpi_month", "total_amount", "transaction_count", "average_ending_balance"], []⟩
    ⟨["hour", "count", "average_time"], []⟩
    ⟨["product", "count"], []⟩
    (by decide) (by decide) (by decide) (by decide) (by decide) (by decide)
    (by decide) rfl

end BisApp
